import Mathlib

/-!
StopWatch (STOPWATCH/StopWatch/src/main.c)

A shallow embedding of the stopwatch firmware: the five shared globals, the
four interrupt service routines, the digit decomposition of `display_time`
and the timer configuration of `timer1_init`.

Machine integers are natural numbers with explicit reduction modulo `2^16`
(`uint16_t milliseconds`) and `2^8` (`uint8_t` for everything else).
-/

namespace StopWatch

/-! ## Data model -/

/-- The globals of main.c lines 20-22: `milliseconds` is a `uint16_t`, the other
four are `uint8_t`. -/
structure ClockState where
  milliseconds : Nat
  seconds : Nat
  minutes : Nat
  hours : Nat
  running : Nat
  deriving DecidableEq, Repr

/-- The values the globals are initialised with: all time fields `0`, `running = 1`. -/
def initState : ClockState :=
  { milliseconds := 0, seconds := 0, minutes := 0, hours := 0, running := 1 }

/-! ## Interrupt service routines -/

/-- The handler `ISR(TIMER1_COMPA_vect)`, main.c lines 93-113. Each `++` is the
increment of its C type, so it is reduced modulo `2^16` or `2^8`. -/
def TIMER1_COMPA_vect (s : ClockState) : ClockState :=
  if s.running ≠ 0 then
    let s1 := { s with milliseconds := (s.milliseconds + 1) % 65536 }
    if s1.milliseconds ≥ 1000 then
      let s2 := { s1 with milliseconds := 0, seconds := (s1.seconds + 1) % 256 }
      if s2.seconds ≥ 60 then
        let s3 := { s2 with seconds := 0, minutes := (s2.minutes + 1) % 256 }
        if s3.minutes ≥ 60 then
          let s4 := { s3 with minutes := 0, hours := (s3.hours + 1) % 256 }
          if s4.hours ≥ 24 then
            { s4 with hours := 0 }
          else s4
        else s3
      else s2
    else s1
  else s

/-- The handler `ISR(INT0_vect)` (reset), main.c lines 116-124. -/
def INT0_vect (s : ClockState) : ClockState :=
  { s with milliseconds := 0, seconds := 0, minutes := 0, hours := 0, running := 0 }

/-- The handler `ISR(INT1_vect)` (pause), main.c lines 127-129. -/
def INT1_vect (s : ClockState) : ClockState :=
  { s with running := 0 }

/-- The handler `ISR(INT2_vect)` (resume), main.c lines 132-134. -/
def INT2_vect (s : ClockState) : ClockState :=
  { s with running := 1 }

/-- The state after `n` successive executions of the tick handler. -/
def ticks : Nat → ClockState → ClockState
  | 0, s => s
  | n + 1, s => ticks n (TIMER1_COMPA_vect s)

/-- The four interrupt sources that write the clock state. -/
inductive Event where
  | tick
  | reset
  | pause
  | resume
  deriving DecidableEq, Repr

/-- Dispatch of one interrupt to its service routine. -/
def step (s : ClockState) : Event → ClockState
  | Event.tick => TIMER1_COMPA_vect s
  | Event.reset => INT0_vect s
  | Event.pause => INT1_vect s
  | Event.resume => INT2_vect s

/-- The state after a finite sequence of interrupts, delivered first to last. -/
def run (s : ClockState) (es : List Event) : ClockState :=
  es.foldl step s

/-! ## Display -/

/-- The array `digits[8]` filled by `display_time`, main.c lines 140-148. The
elements are `uint8_t`, so each stored value is reduced modulo `2^8`. -/
def display_digits (s : ClockState) : List Nat :=
  [ s.milliseconds % 100 / 10 % 256,
    s.milliseconds / 100 % 256,
    s.seconds % 10 % 256,
    s.seconds / 10 % 256,
    s.minutes % 10 % 256,
    s.minutes / 10 % 256,
    s.hours % 10 % 256,
    s.hours / 10 % 256 ]

/-! ## Timer 1 configuration -/

/-- The registers written by `timer1_init`: `TCCR1B` and `TIMSK` are 8 bits wide,
`OCR1A` is 16 bits wide. -/
structure Timer1Regs where
  TCCR1B : Nat
  OCR1A : Nat
  TIMSK : Nat
  deriving DecidableEq, Repr

/-- Bit number of `WGM12` in `TCCR1B` (avr/io.h, ATmega16/32). -/
def WGM12 : Nat := 3

/-- Bit number of `CS11` in `TCCR1B` (avr/io.h, ATmega16/32). -/
def CS11 : Nat := 1

/-- Bit number of `CS10` in `TCCR1B` (avr/io.h, ATmega16/32). -/
def CS10 : Nat := 0

/-- Bit number of `OCIE1A` in `TIMSK` (avr/io.h, ATmega16/32). -/
def OCIE1A : Nat := 4

/-- The function `timer1_init`, main.c lines 53-62. -/
def timer1_init (r : Timer1Regs) : Timer1Regs :=
  let r1 := { r with TCCR1B := (r.TCCR1B ||| ((1 <<< WGM12) ||| (1 <<< CS11) ||| (1 <<< CS10))) % 256 }
  let r2 := { r1 with OCR1A := 15 }
  { r2 with TIMSK := (r2.TIMSK ||| (1 <<< OCIE1A)) % 256 }

/-- The register values at power-on. -/
def resetRegs : Timer1Regs :=
  { TCCR1B := 0, OCR1A := 0, TIMSK := 0 }

/-- The CPU clock in Hz named by the comment of `timer1_init` ("1MHz (Fcpu)"). -/
def F_CPU : Nat := 1000000

/-- The divider selected by the clock-select bits `CS12:CS10` of `TCCR1B`
(the ATmega16/32 timer 1 prescaler table); `none` when the timer is stopped or
clocked from the external pin. -/
def prescaler (r : Timer1Regs) : Option Nat :=
  match r.TCCR1B % 8 with
  | 1 => some 1
  | 2 => some 8
  | 3 => some 64
  | 4 => some 256
  | 5 => some 1024
  | _ => none

/-- CPU cycles between two compare-match interrupts in CTC mode: the counter
runs from `0` to `OCR1A` inclusive, which is `OCR1A + 1` prescaled counts. -/
def tickPeriodCycles (r : Timer1Regs) : Option Nat :=
  (prescaler r).map (fun p => p * (r.OCR1A + 1))

/-- The tick period in seconds, as an exact rational. -/
def tickPeriodSeconds (r : Timer1Regs) : Option ℚ :=
  (tickPeriodCycles r).map (fun c => (c : ℚ) / (F_CPU : ℚ))

/-! ## Derived notions used by the statements -/

/-- The domain predicate of the four time fields. -/
def Valid (s : ClockState) : Prop :=
  s.milliseconds ≤ 999 ∧ s.seconds ≤ 59 ∧ s.minutes ≤ 59 ∧ s.hours ≤ 23

instance (s : ClockState) : Decidable (Valid s) := by
  unfold Valid; infer_instance

/-- The elapsed time of a state in milliseconds. -/
def total (s : ClockState) : Nat :=
  ((s.hours * 60 + s.minutes) * 60 + s.seconds) * 1000 + s.milliseconds

/-- The clock state that shows `t` elapsed milliseconds, with run flag `r`. -/
def ofTotal (t r : Nat) : ClockState :=
  { milliseconds := t % 1000, seconds := t / 1000 % 60, minutes := t / 60000 % 60,
    hours := t / 3600000 % 24, running := r }

/-! ## Display scan loop and interrupted snapshot -/

/-- The output ports written by `display_time`; both are 8-bit registers. -/
structure Ports where
  PORTA : Nat
  PORTC : Nat
  deriving DecidableEq, Repr

/-- One iteration of the scan loop of `display_time` for loop index `i`, main.c
lines 152-169: `PORTA = (1 << i)`, then
`PORTC = (PORTC & 0xF0) | (digits[i] & 0x0F)`, each stored in 8 bits. The settle
delay writes nothing and is left out. -/
def display_step (digits : List Nat) (p : Ports) (i : Nat) : Ports :=
  let p1 := { p with PORTA := (1 <<< i) % 256 }
  { p1 with PORTC := ((p1.PORTC &&& 0xF0) ||| (digits.getD i 0 &&& 0x0F)) % 256 }

/-- The ports after the first `k` iterations (`i = 0, ..., k - 1`) of the scan loop. -/
def scan (digits : List Nat) (p : Ports) : Nat → Ports
  | 0 => p
  | k + 1 => display_step digits (scan digits p k) k

/-- The function `display_time`, main.c lines 137-170: fill `digits` from the
globals, then run `for (i = 0; i < 8; i++)`. -/
def display_time (s : ClockState) (p : Ports) : Ports :=
  scan (display_digits s) p 8

/-- The array `digits[8]` when one tick interrupt is served after `p` of the eight
assignments of `display_time` have run: each assignment reads one global, so
assignments `0, ..., p - 1` read the state before the tick and assignments
`p, ..., 7` read the state after it. -/
def display_digits_interrupted (p : Nat) (s : ClockState) : List Nat :=
  (List.range 8).map (fun i =>
    (display_digits (if i < p then s else TIMER1_COMPA_vect s)).getD i 0)

/-- The tick handler of main.c lines 93-113 read over unbounded integers: the same
statements as `TIMER1_COMPA_vect`, with no reduction of the increments. -/
def TIMER1_COMPA_unbounded (s : ClockState) : ClockState :=
  if s.running ≠ 0 then
    let s1 := { s with milliseconds := s.milliseconds + 1 }
    if s1.milliseconds ≥ 1000 then
      let s2 := { s1 with milliseconds := 0, seconds := s1.seconds + 1 }
      if s2.seconds ≥ 60 then
        let s3 := { s2 with seconds := 0, minutes := s2.minutes + 1 }
        if s3.minutes ≥ 60 then
          let s4 := { s3 with minutes := 0, hours := s3.hours + 1 }
          if s4.hours ≥ 24 then
            { s4 with hours := 0 }
          else s4
        else s3
      else s2
    else s1
  else s

end StopWatch

/-!
Vehicle control system (vehicle_control_system.c)

The `Vehicle` record and the sensor-menu handlers. Values read by `scanf` are
arguments of the handlers. The `sint32` fields are integers; the only arithmetic on
them is `x * (5 / 4) + 1`.
-/

namespace VehicleControl

/-- The struct `Vehicle`, vehicle_control_system.c lines 31-38. -/
structure Vehicle where
  engine_status : Bool
  ac_status : Bool
  engine_temp_controller_status : Bool
  vehicle_speed : Int
  room_temperature : Int
  engine_temperature : Int
  deriving DecidableEq, Repr

/-- Speed when the traffic light is green. -/
def GREEN_LIGHT_V : Int := 100

/-- Speed when the traffic light is red. -/
def RED_LIGHT_V : Int := 0

/-- Speed when the traffic light is orange. -/
def ORANGE_LIGHT_V : Int := 30

/-- The function `handle_traffic_light`, lines 175-197; `traffic_light` is the
character read by `scanf`. -/
def handle_traffic_light (v : Vehicle) (traffic_light : Char) : Vehicle :=
  if traffic_light = 'G' then { v with vehicle_speed := GREEN_LIGHT_V }
  else if traffic_light = 'O' then { v with vehicle_speed := ORANGE_LIGHT_V }
  else if traffic_light = 'R' then { v with vehicle_speed := RED_LIGHT_V }
  else v

/-- The function `handle_room_temperature`, lines 200-215; `temp` is the value read
by `scanf`. -/
def handle_room_temperature (v : Vehicle) (temp : Int) : Vehicle :=
  let v1 := { v with room_temperature := temp }
  if temp < 10 ∨ temp > 30 then
    { v1 with ac_status := true, room_temperature := 20 }
  else
    { v1 with ac_status := false }

/-- The function `handle_engine_temperature`, lines 218-235, with
`WITH_ENGINE_TEMP_CONTROLLER` set to 1 as in line 14. -/
def handle_engine_temperature (v : Vehicle) (temp : Int) : Vehicle :=
  let v1 := { v with engine_temperature := temp }
  if temp < 100 ∨ temp > 150 then
    { v1 with engine_temp_controller_status := true, engine_temperature := 125 }
  else
    { v1 with engine_temp_controller_status := false }

/-- The function `handle_engine_sensor_menu`, lines 124-172: `input` is the menu
character, `traffic_light` and `temp` are what the chosen sub-handler reads. The
C expression `(5 / 4)` is a division of two `int` constants. -/
def handle_engine_sensor_menu (v : Vehicle) (input : Char) (traffic_light : Char)
    (temp : Int) : Vehicle :=
  let v1 :=
    if input = 'a' then { v with engine_status := false }
    else if input = 'b' then handle_traffic_light v traffic_light
    else if input = 'c' then handle_room_temperature v temp
    else if input = 'd' then handle_engine_temperature v temp
    else v
  if 30 = v1.vehicle_speed then
    let v2 :=
      if v1.ac_status = false then
        { v1 with ac_status := true,
                  room_temperature := (v1.room_temperature * (Int.tdiv 5 4)) + 1 }
      else v1
    if v2.engine_temp_controller_status = false then
      { v2 with engine_temp_controller_status := true,
                engine_temperature := (v2.engine_temperature * (Int.tdiv 5 4)) + 1 }
    else v2
  else v1

end VehicleControl

namespace StopWatch

/-! ## Helper lemmas -/

theorem ticks_succ_outer (n : Nat) (s : ClockState) :
    ticks (n + 1) s = TIMER1_COMPA_vect (ticks n s) := by
  induction n generalizing s with
  | zero => rfl
  | succ k ih =>
    show ticks (k + 1) (TIMER1_COMPA_vect s) = _
    rw [ih]
    rfl

theorem ticks_add (a b : Nat) (s : ClockState) :
    ticks (a + b) s = ticks b (ticks a s) := by
  induction a generalizing s with
  | zero => simp [ticks]
  | succ k ih =>
    have h : k + 1 + b = (k + b) + 1 := by omega
    rw [h]
    show ticks (k + b) (TIMER1_COMPA_vect s) = ticks b (ticks k (TIMER1_COMPA_vect s))
    exact ih _

theorem tick_stopped (s : ClockState) (h : s.running = 0) : TIMER1_COMPA_vect s = s := by
  simp [TIMER1_COMPA_vect, h]

theorem ticks_stopped (n : Nat) (s : ClockState) (h : s.running = 0) : ticks n s = s := by
  induction n with
  | zero => rfl
  | succ k ih =>
    show ticks k (TIMER1_COMPA_vect s) = s
    rw [tick_stopped s h]
    exact ih

theorem tick_ofTotal (t r : Nat) (hr : r ≠ 0) :
    TIMER1_COMPA_vect (ofTotal t r) = ofTotal (t + 1) r := by
  simp only [TIMER1_COMPA_vect, ofTotal]
  split_ifs <;> simp only [ClockState.mk.injEq, and_true] <;> omega

theorem ticks_ofTotal (n t r : Nat) (hr : r ≠ 0) :
    ticks n (ofTotal t r) = ofTotal (t + n) r := by
  induction n generalizing t with
  | zero => rfl
  | succ k ih =>
    show ticks k (TIMER1_COMPA_vect (ofTotal t r)) = _
    rw [tick_ofTotal t r hr, ih]
    congr 1
    omega

theorem ofTotal_total (s : ClockState) (h : Valid s) : ofTotal (total s) s.running = s := by
  obtain ⟨h1, h2, h3, h4⟩ := h
  cases s
  simp only [ofTotal, total, ClockState.mk.injEq, and_true] at *
  omega

theorem total_ofTotal (t r : Nat) : total (ofTotal t r) = t % 86400000 := by
  simp only [total, ofTotal]
  omega

theorem valid_ofTotal (t r : Nat) : Valid (ofTotal t r) := by
  simp only [Valid, ofTotal]
  omega

theorem initState_eq_ofTotal : initState = ofTotal 0 1 := by
  decide

theorem ticks_initState (n : Nat) : ticks n initState = ofTotal n 1 := by
  rw [initState_eq_ofTotal, ticks_ofTotal n 0 1 (by decide)]
  congr 1
  omega

theorem ticks_valid_running (n : Nat) (s : ClockState) (hv : Valid s) (hr : s.running ≠ 0) :
    ticks n s = ofTotal (total s + n) s.running := by
  conv_lhs => rw [← ofTotal_total s hv]
  exact ticks_ofTotal n (total s) s.running hr

/-! ## The tick handler -/

/-- C1: from the initial state, `n` executions of the tick handler leave
milliseconds = n mod 1000, seconds = (n / 1000) mod 60, minutes = (n / 60000) mod 60,
hours = (n / 3600000) mod 24 and running = 1; 1000 ticks give (0,1,0,0), 60000 ticks
give (0,0,1,0) and 86400000 ticks give (0,0,0,0). -/
theorem ticks_from_init :
    (∀ n : Nat, ticks n initState =
      { milliseconds := n % 1000, seconds := n / 1000 % 60, minutes := n / 60000 % 60,
        hours := n / 3600000 % 24, running := 1 }) ∧
    ticks 1000 initState =
      { milliseconds := 0, seconds := 1, minutes := 0, hours := 0, running := 1 } ∧
    ticks 60000 initState =
      { milliseconds := 0, seconds := 0, minutes := 1, hours := 0, running := 1 } ∧
    ticks 86400000 initState =
      { milliseconds := 0, seconds := 0, minutes := 0, hours := 0, running := 1 } := by
  refine ⟨fun n => ticks_initState n, ?_, ?_, ?_⟩
  · rw [ticks_initState]; decide
  · rw [ticks_initState]; decide
  · rw [ticks_initState]; decide

/-- C2: on a state whose time fields are in their domains and whose run flag is
non-zero, one execution of the tick handler gives a state that is again in-domain,
has the same run flag, and whose elapsed time is the old one plus one, modulo
86400000 (one day in milliseconds). -/
theorem tick_total (s : ClockState) (hv : Valid s) (hr : s.running ≠ 0) :
    Valid (TIMER1_COMPA_vect s) ∧
    (TIMER1_COMPA_vect s).running = s.running ∧
    total (TIMER1_COMPA_vect s) = (total s + 1) % 86400000 := by
  have h : TIMER1_COMPA_vect s = ofTotal (total s + 1) s.running :=
    ticks_valid_running 1 s hv hr
  rw [h]
  exact ⟨valid_ofTotal _ _, rfl, total_ofTotal _ _⟩

theorem tick_total_witness :
    Valid ⟨999, 59, 59, 23, 1⟩ ∧ (⟨999, 59, 59, 23, 1⟩ : ClockState).running ≠ 0 ∧
    Valid (TIMER1_COMPA_vect ⟨999, 59, 59, 23, 1⟩) ∧
    (TIMER1_COMPA_vect ⟨999, 59, 59, 23, 1⟩).running = (⟨999, 59, 59, 23, 1⟩ : ClockState).running ∧
    total (TIMER1_COMPA_vect ⟨999, 59, 59, 23, 1⟩) =
      (total ⟨999, 59, 59, 23, 1⟩ + 1) % 86400000 :=
  ⟨by decide, by decide, tick_total ⟨999, 59, 59, 23, 1⟩ (by decide) (by decide)⟩

/-- C3: when running = 0 the tick handler changes none of the five variables,
whatever the values of the time fields, in or out of their domains. -/
theorem tick_noop_when_stopped (s : ClockState) (h : s.running = 0) :
    TIMER1_COMPA_vect s = s := by
  unfold TIMER1_COMPA_vect
  rw [if_neg (by simp [h])]

theorem tick_noop_when_stopped_witness :
    (⟨65535, 255, 200, 24, 0⟩ : ClockState).running = 0 ∧
    TIMER1_COMPA_vect ⟨65535, 255, 200, 24, 0⟩ = ⟨65535, 255, 200, 24, 0⟩ :=
  ⟨rfl, tick_noop_when_stopped ⟨65535, 255, 200, 24, 0⟩ rfl⟩

/-! ## The control handlers -/

/-- C4: the reset handler INT0 yields milliseconds = 0, seconds = 0, minutes = 0,
hours = 0 and running = 0 from every prior state. -/
theorem reset_yields_zero_stopped (s : ClockState) :
    INT0_vect s = { milliseconds := 0, seconds := 0, minutes := 0, hours := 0, running := 0 } := by
  rfl

/-- C5: for an in-domain running state, pausing (INT1), delivering k ticks, resuming
(INT2) and delivering m further ticks gives exactly the state that m ticks alone
give; the never-paused clock after the same k + m ticks is k ticks ahead of it, both
as a state and in elapsed time. Scenario: 2500 ticks from the initial state give
(500,2,0,0); pause and 100 ticks leave (500,2,0,0); resume and 500 ticks give
(0,3,0,0). -/
theorem pause_resume_k_behind :
    (∀ (s : ClockState) (k m : Nat), Valid s → s.running ≠ 0 →
      ticks m (INT2_vect (ticks k (INT1_vect s))) = { ticks m s with running := 1 }) ∧
    (∀ (s : ClockState) (k m : Nat), Valid s → s.running = 1 →
      ticks m (INT2_vect (ticks k (INT1_vect s))) = ticks m s ∧
      ticks (k + m) s = ticks k (ticks m (INT2_vect (ticks k (INT1_vect s)))) ∧
      total (ticks (k + m) s) =
        (total (ticks m (INT2_vect (ticks k (INT1_vect s)))) + k) % 86400000) ∧
    ticks 2500 initState =
      { milliseconds := 500, seconds := 2, minutes := 0, hours := 0, running := 1 } ∧
    ticks 100 (INT1_vect (ticks 2500 initState)) =
      { milliseconds := 500, seconds := 2, minutes := 0, hours := 0, running := 0 } ∧
    ticks 500 (INT2_vect (ticks 100 (INT1_vect (ticks 2500 initState)))) =
      { milliseconds := 0, seconds := 3, minutes := 0, hours := 0, running := 1 } := by
  have key : ∀ (s : ClockState) (k : Nat), s.running = 1 →
      INT2_vect (ticks k (INT1_vect s)) = s := by
    intro s k hr
    rw [ticks_stopped k (INT1_vect s) rfl]
    cases s
    simp only [INT1_vect, INT2_vect, ClockState.mk.injEq, true_and]
    exact hr.symm
  have h2500 : ticks 2500 initState = ⟨500, 2, 0, 0, 1⟩ := by
    rw [ticks_initState]; decide
  refine ⟨?_, ?_, h2500, ?_, ?_⟩
  · intro s k m hv hr
    rw [ticks_stopped k (INT1_vect s) rfl, ticks_valid_running m s hv hr]
    exact ticks_valid_running m (INT2_vect (INT1_vect s)) hv Nat.one_ne_zero
  · intro s k m hv hr
    have hne : s.running ≠ 0 := by omega
    rw [key s k hr]
    refine ⟨rfl, ?_, ?_⟩
    · rw [Nat.add_comm k m]
      exact ticks_add m k s
    · rw [ticks_valid_running (k + m) s hv hne, ticks_valid_running m s hv hne,
        total_ofTotal, total_ofTotal]
      omega
  · rw [h2500, ticks_stopped 100 _ rfl]
    rfl
  · rw [key _ 100 (by rw [h2500]), ← ticks_add, ticks_initState]
    decide

theorem pause_resume_k_behind_witness :
    Valid ⟨500, 2, 0, 0, 1⟩ ∧ (⟨500, 2, 0, 0, 1⟩ : ClockState).running = 1 ∧
    ticks 500 (INT2_vect (ticks 100 (INT1_vect ⟨500, 2, 0, 0, 1⟩))) =
      ticks 500 ⟨500, 2, 0, 0, 1⟩ ∧
    ticks (100 + 500) ⟨500, 2, 0, 0, 1⟩ =
      ticks 100 (ticks 500 (INT2_vect (ticks 100 (INT1_vect ⟨500, 2, 0, 0, 1⟩)))) ∧
    total (ticks (100 + 500) ⟨500, 2, 0, 0, 1⟩) =
      (total (ticks 500 (INT2_vect (ticks 100 (INT1_vect ⟨500, 2, 0, 0, 1⟩)))) + 100)
        % 86400000 :=
  ⟨by decide, rfl, pause_resume_k_behind.2.1 ⟨500, 2, 0, 0, 1⟩ 100 500 (by decide) rfl⟩

/-! ## The display digits -/

/-- C6: on a valid clock state the eight digits d0..d7 computed by `display_time`
satisfy hours = 10*d7 + d6, minutes = 10*d5 + d4, seconds = 10*d3 + d2 and
milliseconds / 10 = 10*d1 + d0. -/
theorem digits_roundtrip (s : ClockState) (hv : Valid s) :
    s.hours = 10 * (display_digits s).getD 7 0 + (display_digits s).getD 6 0 ∧
    s.minutes = 10 * (display_digits s).getD 5 0 + (display_digits s).getD 4 0 ∧
    s.seconds = 10 * (display_digits s).getD 3 0 + (display_digits s).getD 2 0 ∧
    s.milliseconds / 10 = 10 * (display_digits s).getD 1 0 + (display_digits s).getD 0 0 := by
  obtain ⟨h1, h2, h3, h4⟩ := hv
  simp only [display_digits, List.getD_cons_succ, List.getD_cons_zero]
  omega

theorem digits_roundtrip_witness :
    Valid ⟨987, 45, 36, 21, 1⟩ ∧
    (⟨987, 45, 36, 21, 1⟩ : ClockState).hours =
      10 * (display_digits ⟨987, 45, 36, 21, 1⟩).getD 7 0 +
        (display_digits ⟨987, 45, 36, 21, 1⟩).getD 6 0 ∧
    (⟨987, 45, 36, 21, 1⟩ : ClockState).minutes =
      10 * (display_digits ⟨987, 45, 36, 21, 1⟩).getD 5 0 +
        (display_digits ⟨987, 45, 36, 21, 1⟩).getD 4 0 ∧
    (⟨987, 45, 36, 21, 1⟩ : ClockState).seconds =
      10 * (display_digits ⟨987, 45, 36, 21, 1⟩).getD 3 0 +
        (display_digits ⟨987, 45, 36, 21, 1⟩).getD 2 0 ∧
    (⟨987, 45, 36, 21, 1⟩ : ClockState).milliseconds / 10 =
      10 * (display_digits ⟨987, 45, 36, 21, 1⟩).getD 1 0 +
        (display_digits ⟨987, 45, 36, 21, 1⟩).getD 0 0 :=
  ⟨by decide, digits_roundtrip ⟨987, 45, 36, 21, 1⟩ (by decide)⟩

/-! ## The domain invariant -/

/-- C7: the domain predicate (milliseconds <= 999, seconds <= 59, minutes <= 59,
hours <= 23) holds in the initial state and is preserved by the tick, reset, pause
and resume handlers, so every state reached from the initial state by a finite
sequence of these events is valid. -/
theorem valid_invariant :
    Valid initState ∧
    (∀ s : ClockState, Valid s → Valid (TIMER1_COMPA_vect s)) ∧
    (∀ s : ClockState, Valid s → Valid (INT0_vect s)) ∧
    (∀ s : ClockState, Valid s → Valid (INT1_vect s)) ∧
    (∀ s : ClockState, Valid s → Valid (INT2_vect s)) ∧
    (∀ es : List Event, Valid (run initState es)) := by
  have htick : ∀ s : ClockState, Valid s → Valid (TIMER1_COMPA_vect s) := by
    intro s hv
    by_cases hr : s.running = 0
    · rw [tick_stopped s hr]; exact hv
    · have h : TIMER1_COMPA_vect s = ofTotal (total s + 1) s.running :=
        ticks_valid_running 1 s hv hr
      rw [h]
      exact valid_ofTotal _ _
  have hreset : ∀ s : ClockState, Valid s → Valid (INT0_vect s) := by
    intro s _
    simp [Valid, INT0_vect]
  have hpause : ∀ s : ClockState, Valid s → Valid (INT1_vect s) := fun s hv => hv
  have hresume : ∀ s : ClockState, Valid s → Valid (INT2_vect s) := fun s hv => hv
  have hstep : ∀ (s : ClockState) (e : Event), Valid s → Valid (step s e) := by
    intro s e hv
    cases e
    · exact htick s hv
    · exact hreset s hv
    · exact hpause s hv
    · exact hresume s hv
  have hrun : ∀ (es : List Event) (s : ClockState), Valid s → Valid (run s es) := by
    intro es
    induction es with
    | nil => intro s hv; exact hv
    | cons e rest ih =>
      intro s hv
      show Valid (run (step s e) rest)
      exact ih (step s e) (hstep s e hv)
  have hinit : Valid initState := by decide
  exact ⟨hinit, htick, hreset, hpause, hresume, fun es => hrun es initState hinit⟩

theorem valid_invariant_witness :
    Valid ⟨999, 59, 59, 23, 1⟩ ∧
    Valid (TIMER1_COMPA_vect ⟨999, 59, 59, 23, 1⟩) ∧
    Valid (INT0_vect ⟨999, 59, 59, 23, 1⟩) ∧
    Valid (INT1_vect ⟨999, 59, 59, 23, 1⟩) ∧
    Valid (INT2_vect ⟨999, 59, 59, 23, 1⟩) ∧
    Valid (run initState [Event.tick, Event.pause, Event.tick, Event.resume, Event.reset]) :=
  ⟨by decide,
   valid_invariant.2.1 ⟨999, 59, 59, 23, 1⟩ (by decide),
   valid_invariant.2.2.1 ⟨999, 59, 59, 23, 1⟩ (by decide),
   valid_invariant.2.2.2.1 ⟨999, 59, 59, 23, 1⟩ (by decide),
   valid_invariant.2.2.2.2.1 ⟨999, 59, 59, 23, 1⟩ (by decide),
   valid_invariant.2.2.2.2.2 _⟩

/-! ## Pause and resume -/

/-- C8: pause (INT1) applied twice gives the same state as pause applied once, and
resume (INT2) applied twice gives the same state as resume applied once. -/
theorem pause_resume_idempotent (s : ClockState) :
    INT1_vect (INT1_vect s) = INT1_vect s ∧ INT2_vect (INT2_vect s) = INT2_vect s :=
  ⟨rfl, rfl⟩

/-- C9: the pause handler (INT1) sets running to 0, the resume handler (INT2) sets
running to 1, and each leaves milliseconds, seconds, minutes and hours as they were. -/
theorem pause_resume_frame (s : ClockState) :
    ((INT1_vect s).running = 0 ∧
      (INT1_vect s).milliseconds = s.milliseconds ∧ (INT1_vect s).seconds = s.seconds ∧
      (INT1_vect s).minutes = s.minutes ∧ (INT1_vect s).hours = s.hours) ∧
    ((INT2_vect s).running = 1 ∧
      (INT2_vect s).milliseconds = s.milliseconds ∧ (INT2_vect s).seconds = s.seconds ∧
      (INT2_vect s).minutes = s.minutes ∧ (INT2_vect s).hours = s.hours) :=
  ⟨⟨rfl, rfl, rfl, rfl, rfl⟩, ⟨rfl, rfl, rfl, rfl, rfl⟩⟩

/-! ## The tick source -/

/-- C10 (the code at its configuration): after `timer1_init` on the power-on register
values the prescaler is 64 and OCR1A is 15, so two tick interrupts are 64 * 16 = 1024
CPU cycles apart, not 1000; at 1 MHz that is 128/125000 s, not 1/1000 s, and 1000
ticks span 128/125 s, not one second. -/
theorem timer1_period_is_1024_cycles :
    prescaler (timer1_init resetRegs) = some 64 ∧
    (timer1_init resetRegs).OCR1A = 15 ∧
    tickPeriodCycles (timer1_init resetRegs) = some 1024 ∧
    tickPeriodCycles (timer1_init resetRegs) ≠ some 1000 ∧
    tickPeriodSeconds (timer1_init resetRegs) = some (128 / 125000) ∧
    tickPeriodSeconds (timer1_init resetRegs) ≠ some (1 / 1000) ∧
    (tickPeriodSeconds (timer1_init resetRegs)).map (fun p => 1000 * p) = some (128 / 125) := by
  have hc : tickPeriodCycles (timer1_init resetRegs) = some 1024 := by decide
  have hs : tickPeriodSeconds (timer1_init resetRegs) = some (128 / 125000) := by
    simp only [tickPeriodSeconds, hc, Option.map_some', F_CPU]
    norm_num
  refine ⟨by decide, rfl, hc, by decide, hs, ?_, ?_⟩
  · rw [hs]
    norm_num
  · rw [hs]
    simp only [Option.map_some']
    norm_num

/-! ## Interrupted display snapshot -/

theorem tick_eq_ofTotal (s : ClockState) (hv : Valid s) (hr : s.running ≠ 0) :
    TIMER1_COMPA_vect s = ofTotal (total s + 1) s.running :=
  ticks_valid_running 1 s hv hr

theorem display_digits_eq_map (s : ClockState) :
    display_digits s = (List.range 8).map (fun i => (display_digits s).getD i 0) := by
  rfl

/-- C11 (as stated, refuted): from 00:00:59.999 running, a tick served after the two
millisecond digits have been read gives the digits 9,9,0,0,1,0,0,0, which are
neither those of the state before the tick nor those of the state after it. -/
theorem snapshot_torn_counterexample :
    Valid ⟨999, 59, 0, 0, 1⟩ ∧ (⟨999, 59, 0, 0, 1⟩ : ClockState).running ≠ 0 ∧
    display_digits_interrupted 2 ⟨999, 59, 0, 0, 1⟩ = [9, 9, 0, 0, 1, 0, 0, 0] ∧
    display_digits ⟨999, 59, 0, 0, 1⟩ = [9, 9, 9, 5, 0, 0, 0, 0] ∧
    display_digits (TIMER1_COMPA_vect ⟨999, 59, 0, 0, 1⟩) = [0, 0, 0, 0, 1, 0, 0, 0] ∧
    ¬ (display_digits_interrupted 2 ⟨999, 59, 0, 0, 1⟩ = display_digits ⟨999, 59, 0, 0, 1⟩ ∨
       display_digits_interrupted 2 ⟨999, 59, 0, 0, 1⟩ =
         display_digits (TIMER1_COMPA_vect ⟨999, 59, 0, 0, 1⟩)) := by
  decide

/-- C11 (amended): for a valid running state, the digits computed by `display_time`
are those of the state before or of the state after the tick at every point between
two reads exactly when milliseconds mod 100 is not 99, that is when the tick changes
no displayed digit other than the first. -/
theorem snapshot_untorn_iff (s : ClockState) (hv : Valid s) (hr : s.running ≠ 0) :
    (∀ p : Nat, 1 ≤ p → p ≤ 7 →
      (display_digits_interrupted p s = display_digits s ∨
       display_digits_interrupted p s = display_digits (TIMER1_COMPA_vect s))) ↔
    s.milliseconds % 100 ≠ 99 := by
  have htick := tick_eq_ofTotal s hv hr
  obtain ⟨h1, h2, h3, h4⟩ := hv
  constructor
  · intro h hms
    rcases h 1 (by omega) (by omega) with hpre | hpost
    · have h' := congrArg (fun l => l.getD 1 0) hpre
      simp only [display_digits_interrupted, htick] at h'
      simp [display_digits, ofTotal, total] at h'
      omega
    · have h' := congrArg (fun l => l.getD 0 0) hpost
      simp only [display_digits_interrupted, htick] at h'
      simp [display_digits, ofTotal, total] at h'
      omega
  · intro hms p hp1 _
    left
    conv_rhs => rw [display_digits_eq_map s]
    unfold display_digits_interrupted
    apply List.map_congr_left
    intro i hi
    have hi8 : i < 8 := List.mem_range.mp hi
    by_cases hip : i < p
    · rw [if_pos hip]
    · rw [if_neg hip, htick]
      have hi1 : 1 ≤ i := by omega
      interval_cases i <;>
        simp only [display_digits, ofTotal, total, List.getD_cons_succ, List.getD_cons_zero] <;>
        omega

theorem snapshot_untorn_iff_witness :
    Valid ⟨500, 2, 0, 0, 1⟩ ∧ (⟨500, 2, 0, 0, 1⟩ : ClockState).running ≠ 0 ∧
    ((∀ p : Nat, 1 ≤ p → p ≤ 7 →
      (display_digits_interrupted p ⟨500, 2, 0, 0, 1⟩ = display_digits ⟨500, 2, 0, 0, 1⟩ ∨
       display_digits_interrupted p ⟨500, 2, 0, 0, 1⟩ =
         display_digits (TIMER1_COMPA_vect ⟨500, 2, 0, 0, 1⟩))) ↔
     (⟨500, 2, 0, 0, 1⟩ : ClockState).milliseconds % 100 ≠ 99) :=
  ⟨by decide, by decide, snapshot_untorn_iff ⟨500, 2, 0, 0, 1⟩ (by decide) (by decide)⟩

/-! ## Reset implies stop -/

theorem step_zero_stopped (e : Event) (h : e ≠ Event.resume) :
    step ⟨0, 0, 0, 0, 0⟩ e = ⟨0, 0, 0, 0, 0⟩ := by
  cases e
  · rfl
  · rfl
  · rfl
  · exact absurd rfl h

theorem run_zero_stopped (es : List Event) (h : ∀ e ∈ es, e ≠ Event.resume) :
    run ⟨0, 0, 0, 0, 0⟩ es = ⟨0, 0, 0, 0, 0⟩ := by
  induction es with
  | nil => rfl
  | cons e rest ih =>
    show run (step ⟨0, 0, 0, 0, 0⟩ e) rest = _
    rw [step_zero_stopped e (h e (List.mem_cons_self e rest))]
    exact ih (fun x hx => h x (List.mem_cons_of_mem e hx))

/-- C12: after a reset (INT0) from any state, every finite sequence of ticks, pauses
and resets (no resume) leaves the state at (0,0,0,0) with running = 0, and so does
every prefix of it: the clock does not advance until a resume occurs. -/
theorem reset_holds_until_resume (s : ClockState) (es : List Event)
    (h : ∀ e ∈ es, e ≠ Event.resume) :
    run (INT0_vect s) es =
      { milliseconds := 0, seconds := 0, minutes := 0, hours := 0, running := 0 } ∧
    ∀ k : Nat, run (INT0_vect s) (es.take k) =
      { milliseconds := 0, seconds := 0, minutes := 0, hours := 0, running := 0 } :=
  ⟨run_zero_stopped es h,
   fun k => run_zero_stopped (es.take k) (fun e he => h e (List.mem_of_mem_take he))⟩

theorem reset_holds_until_resume_witness :
    (∀ e ∈ [Event.tick, Event.pause, Event.tick, Event.reset, Event.tick],
      e ≠ Event.resume) ∧
    run (INT0_vect ⟨999, 59, 59, 23, 1⟩)
        [Event.tick, Event.pause, Event.tick, Event.reset, Event.tick] =
      { milliseconds := 0, seconds := 0, minutes := 0, hours := 0, running := 0 } ∧
    ∀ k : Nat, run (INT0_vect ⟨999, 59, 59, 23, 1⟩)
        ([Event.tick, Event.pause, Event.tick, Event.reset, Event.tick].take k) =
      { milliseconds := 0, seconds := 0, minutes := 0, hours := 0, running := 0 } :=
  ⟨by decide,
   reset_holds_until_resume ⟨999, 59, 59, 23, 1⟩
     [Event.tick, Event.pause, Event.tick, Event.reset, Event.tick] (by decide)⟩

/-! ## The scan loop -/

theorem digit_le_nine (s : ClockState) (hv : Valid s) (i : Nat) (hi : i < 8) :
    (display_digits s).getD i 0 ≤ 9 := by
  obtain ⟨h1, h2, h3, h4⟩ := hv
  interval_cases i <;>
    simp only [display_digits, List.getD_cons_succ, List.getD_cons_zero] <;>
    omega

theorem low_nibble_written (c d : Nat) (h : d ≤ 9) :
    ((c &&& 0xF0) ||| (d &&& 0x0F)) % 256 % 16 = d := by
  rw [Nat.mod_mod_of_dvd _ (by norm_num : 16 ∣ 256)]
  apply Nat.eq_of_testBit_eq
  intro i
  rw [show (16 : Nat) = 2 ^ 4 from rfl, Nat.testBit_mod_two_pow, Nat.testBit_or,
    Nat.testBit_and, Nat.testBit_and]
  by_cases hi : i < 4
  · have h240 : Nat.testBit 240 i = false := by interval_cases i <;> rfl
    have h15 : Nat.testBit 15 i = true := by interval_cases i <;> rfl
    simp [hi, h240, h15]
  · have hd : d < 2 ^ i := by
      have : 2 ^ 4 ≤ 2 ^ i := Nat.pow_le_pow_right (by norm_num) (by omega)
      omega
    simp [hi, Nat.testBit_lt_two_pow hd]

theorem mask_keeps_digit (d : Nat) (h : d ≤ 9) : d &&& 0x0F = d := by
  rw [show (0x0F : Nat) = 2 ^ 4 - 1 from rfl, Nat.and_pow_two_sub_one_eq_mod]
  exact Nat.mod_eq_of_lt (by norm_num; omega)

theorem one_shiftLeft_byte (i : Nat) (hi : i < 8) : (1 <<< i) % 256 = 2 ^ i := by
  rw [Nat.one_shiftLeft]
  apply Nat.mod_eq_of_lt
  calc 2 ^ i < 2 ^ 8 := Nat.pow_lt_pow_right (by norm_num) hi
    _ = 256 := by norm_num

/-- C13: for a valid clock state, any prior port values and every scan position
i in 0..7, iteration i of the loop of `display_time` leaves PORTA = 1 << i, whose
only set bit is bit i, and leaves the low four bits of PORTC equal to digits[i],
which is at most 9 and is unchanged by the mask 0x0F; the high four bits of PORTC
are kept. -/
theorem scan_step_one_hot (s : ClockState) (hv : Valid s) (p : Ports) (i : Nat)
    (hi : i < 8) :
    (scan (display_digits s) p (i + 1)).PORTA = 2 ^ i ∧
    (∀ j : Nat, (scan (display_digits s) p (i + 1)).PORTA.testBit j = decide (i = j)) ∧
    (scan (display_digits s) p (i + 1)).PORTC % 16 = (display_digits s).getD i 0 ∧
    (display_digits s).getD i 0 ≤ 9 ∧
    (display_digits s).getD i 0 &&& 0x0F = (display_digits s).getD i 0 := by
  have hd := digit_le_nine s hv i hi
  have hA : (scan (display_digits s) p (i + 1)).PORTA = 2 ^ i := one_shiftLeft_byte i hi
  refine ⟨hA, ?_, ?_, hd, mask_keeps_digit _ hd⟩
  · intro j
    rw [hA]
    exact Nat.testBit_two_pow
  · exact low_nibble_written _ _ hd

theorem scan_step_one_hot_witness :
    Valid ⟨987, 45, 36, 21, 1⟩ ∧ 3 < 8 ∧
    (scan (display_digits ⟨987, 45, 36, 21, 1⟩) ⟨0, 0xA0⟩ (3 + 1)).PORTA = 2 ^ 3 ∧
    (∀ j : Nat, (scan (display_digits ⟨987, 45, 36, 21, 1⟩) ⟨0, 0xA0⟩ (3 + 1)).PORTA.testBit j
      = decide (3 = j)) ∧
    (scan (display_digits ⟨987, 45, 36, 21, 1⟩) ⟨0, 0xA0⟩ (3 + 1)).PORTC % 16 =
      (display_digits ⟨987, 45, 36, 21, 1⟩).getD 3 0 ∧
    (display_digits ⟨987, 45, 36, 21, 1⟩).getD 3 0 ≤ 9 ∧
    (display_digits ⟨987, 45, 36, 21, 1⟩).getD 3 0 &&& 0x0F =
      (display_digits ⟨987, 45, 36, 21, 1⟩).getD 3 0 :=
  ⟨by decide, by decide, scan_step_one_hot ⟨987, 45, 36, 21, 1⟩ (by decide) ⟨0, 0xA0⟩ 3 (by decide)⟩

/-! ## Period of the running clock -/

theorem ofTotal_eq_iff (a b r : Nat) :
    ofTotal a r = ofTotal b r ↔ a % 86400000 = b % 86400000 := by
  constructor
  · intro h
    have h' := congrArg total h
    rw [total_ofTotal, total_ofTotal] at h'
    exact h'
  · intro h
    simp only [ofTotal, ClockState.mk.injEq, and_true]
    omega

/-- C14: for a valid state with running != 0, n executions of the tick handler give
back the same state if and only if n is a multiple of 86400000. -/
theorem clock_period (s : ClockState) (hv : Valid s) (hr : s.running ≠ 0) (n : Nat) :
    ticks n s = s ↔ 86400000 ∣ n := by
  rw [ticks_valid_running n s hv hr]
  conv_lhs => rhs; rw [← ofTotal_total s hv]
  rw [ofTotal_eq_iff, Nat.dvd_iff_mod_eq_zero]
  omega

theorem clock_period_witness :
    Valid ⟨999, 59, 59, 23, 1⟩ ∧ (⟨999, 59, 59, 23, 1⟩ : ClockState).running ≠ 0 ∧
    (ticks 172800000 ⟨999, 59, 59, 23, 1⟩ = ⟨999, 59, 59, 23, 1⟩ ↔
      86400000 ∣ 172800000) ∧
    (ticks 43200000 ⟨999, 59, 59, 23, 1⟩ = ⟨999, 59, 59, 23, 1⟩ ↔
      86400000 ∣ 43200000) :=
  ⟨by decide, by decide,
   clock_period ⟨999, 59, 59, 23, 1⟩ (by decide) (by decide) 172800000,
   clock_period ⟨999, 59, 59, 23, 1⟩ (by decide) (by decide) 43200000⟩

/-! ## Fixed-width arithmetic -/

/-- C15: on a valid state the values produced by milliseconds++, seconds++, minutes++
and hours++ are at most 1000, 60, 60 and 24, none of the increments wraps in its
16-bit or 8-bit type, and the tick handler with increments modulo 2^16 / 2^8 gives
the same state as the tick handler over unbounded integers. -/
theorem tick_no_wraparound (s : ClockState) (hv : Valid s) :
    (s.milliseconds + 1 ≤ 1000 ∧ s.seconds + 1 ≤ 60 ∧ s.minutes + 1 ≤ 60 ∧
      s.hours + 1 ≤ 24) ∧
    ((s.milliseconds + 1) % 65536 = s.milliseconds + 1 ∧
      (s.seconds + 1) % 256 = s.seconds + 1 ∧
      (s.minutes + 1) % 256 = s.minutes + 1 ∧
      (s.hours + 1) % 256 = s.hours + 1) ∧
    TIMER1_COMPA_vect s = TIMER1_COMPA_unbounded s := by
  obtain ⟨h1, h2, h3, h4⟩ := hv
  have e1 : (s.milliseconds + 1) % 65536 = s.milliseconds + 1 := by omega
  have e2 : (s.seconds + 1) % 256 = s.seconds + 1 := by omega
  have e3 : (s.minutes + 1) % 256 = s.minutes + 1 := by omega
  have e4 : (s.hours + 1) % 256 = s.hours + 1 := by omega
  refine ⟨⟨by omega, by omega, by omega, by omega⟩, ⟨e1, e2, e3, e4⟩, ?_⟩
  simp only [TIMER1_COMPA_vect, TIMER1_COMPA_unbounded, e1, e2, e3, e4]

theorem tick_no_wraparound_witness :
    Valid ⟨999, 59, 59, 23, 1⟩ ∧
    ((⟨999, 59, 59, 23, 1⟩ : ClockState).milliseconds + 1 ≤ 1000 ∧
      (⟨999, 59, 59, 23, 1⟩ : ClockState).seconds + 1 ≤ 60 ∧
      (⟨999, 59, 59, 23, 1⟩ : ClockState).minutes + 1 ≤ 60 ∧
      (⟨999, 59, 59, 23, 1⟩ : ClockState).hours + 1 ≤ 24) ∧
    (((⟨999, 59, 59, 23, 1⟩ : ClockState).milliseconds + 1) % 65536 =
        (⟨999, 59, 59, 23, 1⟩ : ClockState).milliseconds + 1 ∧
      ((⟨999, 59, 59, 23, 1⟩ : ClockState).seconds + 1) % 256 =
        (⟨999, 59, 59, 23, 1⟩ : ClockState).seconds + 1 ∧
      ((⟨999, 59, 59, 23, 1⟩ : ClockState).minutes + 1) % 256 =
        (⟨999, 59, 59, 23, 1⟩ : ClockState).minutes + 1 ∧
      ((⟨999, 59, 59, 23, 1⟩ : ClockState).hours + 1) % 256 =
        (⟨999, 59, 59, 23, 1⟩ : ClockState).hours + 1) ∧
    TIMER1_COMPA_vect ⟨999, 59, 59, 23, 1⟩ = TIMER1_COMPA_unbounded ⟨999, 59, 59, 23, 1⟩ :=
  ⟨by decide, tick_no_wraparound ⟨999, 59, 59, 23, 1⟩ (by decide)⟩

end StopWatch

namespace VehicleControl

/-! ## Room temperature -/

/-- C16: for every vehicle state and entered temperature t, `handle_room_temperature`
leaves room_temperature = t and the AC off when 10 <= t <= 30, and room_temperature
= 20 and the AC on otherwise; engine_status, engine_temp_controller_status,
vehicle_speed and engine_temperature are unchanged, and the resulting
room_temperature lies in [10, 30]. -/
theorem room_temperature_handled (v : Vehicle) (t : Int) :
    (10 ≤ t ∧ t ≤ 30 →
      (handle_room_temperature v t).room_temperature = t ∧
      (handle_room_temperature v t).ac_status = false) ∧
    (¬ (10 ≤ t ∧ t ≤ 30) →
      (handle_room_temperature v t).room_temperature = 20 ∧
      (handle_room_temperature v t).ac_status = true) ∧
    ((handle_room_temperature v t).engine_status = v.engine_status ∧
      (handle_room_temperature v t).engine_temp_controller_status =
        v.engine_temp_controller_status ∧
      (handle_room_temperature v t).vehicle_speed = v.vehicle_speed ∧
      (handle_room_temperature v t).engine_temperature = v.engine_temperature) ∧
    (10 ≤ (handle_room_temperature v t).room_temperature ∧
      (handle_room_temperature v t).room_temperature ≤ 30) := by
  by_cases h : t < 10 ∨ t > 30
  · have e : handle_room_temperature v t =
        { v with ac_status := true, room_temperature := 20 } := by
      unfold handle_room_temperature
      rw [if_pos h]
    rw [e]
    refine ⟨fun hin => ?_, fun _ => ⟨rfl, rfl⟩, ⟨rfl, rfl, rfl, rfl⟩, ?_, ?_⟩
    · omega
    · show (10 : Int) ≤ 20
      decide
    · show (20 : Int) ≤ 30
      decide
  · have e : handle_room_temperature v t =
        { v with ac_status := false, room_temperature := t } := by
      unfold handle_room_temperature
      rw [if_neg h]
    rw [e]
    refine ⟨fun _ => ⟨rfl, rfl⟩, fun hout => ?_, ⟨rfl, rfl, rfl, rfl⟩, ?_, ?_⟩
    · omega
    · show 10 ≤ t
      omega
    · show t ≤ 30
      omega

theorem room_temperature_handled_witness :
    ((10 : Int) ≤ 25 ∧ (25 : Int) ≤ 30) ∧
    (handle_room_temperature ⟨true, true, false, 100, 20, 120⟩ 25).room_temperature = 25 ∧
    (handle_room_temperature ⟨true, true, false, 100, 20, 120⟩ 25).ac_status = false ∧
    ¬ ((10 : Int) ≤ 31 ∧ (31 : Int) ≤ 30) ∧
    (handle_room_temperature ⟨true, false, false, 100, 25, 120⟩ 31).room_temperature = 20 ∧
    (handle_room_temperature ⟨true, false, false, 100, 25, 120⟩ 31).ac_status = true :=
  ⟨by decide,
   ((room_temperature_handled ⟨true, true, false, 100, 20, 120⟩ 25).1 (by decide)).1,
   ((room_temperature_handled ⟨true, true, false, 100, 20, 120⟩ 25).1 (by decide)).2,
   by decide,
   ((room_temperature_handled ⟨true, false, false, 100, 25, 120⟩ 31).2.1 (by decide)).1,
   ((room_temperature_handled ⟨true, false, false, 100, 25, 120⟩ 31).2.1 (by decide)).2⟩

/-! ## Adjustment at 30 km/hr -/

/-- C17 (the code at the failing input): with the engine on, AC and engine
temperature controller off, room temperature 20 and engine temperature 120, choosing
'b' and the orange light sets the speed to 30 and turns both on, but the room
temperature becomes 21 and the engine temperature 121, not 26 and 151: the factor
`(5 / 4)` of the code is 1. For every vehicle state the same input raises each
temperature whose controller was off by exactly one. -/
theorem sensor_menu_adds_one :
    Int.tdiv 5 4 = 1 ∧
    handle_engine_sensor_menu ⟨true, false, false, 0, 20, 120⟩ 'b' 'O' 0 =
      ⟨true, true, true, 30, 21, 121⟩ ∧
    (handle_engine_sensor_menu ⟨true, false, false, 0, 20, 120⟩ 'b' 'O' 0).room_temperature
      ≠ 20 * 5 / 4 + 1 ∧
    (handle_engine_sensor_menu ⟨true, false, false, 0, 20, 120⟩ 'b' 'O' 0).engine_temperature
      ≠ 120 * 5 / 4 + 1 ∧
    (∀ (e a c : Bool) (sp rt et t : Int),
      handle_engine_sensor_menu ⟨e, a, c, sp, rt, et⟩ 'b' 'O' t =
        ⟨e, true, true, 30, if a = false then rt + 1 else rt,
          if c = false then et + 1 else et⟩) := by
  have h54 : Int.tdiv 5 4 = 1 := by decide
  refine ⟨h54, by decide, by decide, by decide, ?_⟩
  intro e a c sp rt et t
  cases a <;> cases c <;>
    simp [handle_engine_sensor_menu, handle_traffic_light, ORANGE_LIGHT_V, h54]

end VehicleControl
